import Mathlib

/-!
Verification of the CodeSample report generator (`src/main.py`,
`src/utils/data.py`).

The program loads CSV datasets named by a YAML configuration into pandas
DataFrames (`DataLoader.load_data`), left-joins `player_stats` with
`player_salaries` on `name == Player`, derives `salary_per_minute =
Annual / minutes`, lower-cases the column names, projects seven columns
(`player_salary_on_play_time` in `src/main.py`), and writes the result
as an Excel file (`save_as_excel` in `src/utils/data.py`).

This file shallowly embeds those operations:
  * a cell `Value` is a string, a rational number, or one of the IEEE
    special markers `nan` / `inf` / `neginf` (floating-point numbers are
    modelled by rationals plus the special markers; the rounding of
    individual float operations is not modelled);
  * a `DataFrame` is a column-name list plus a list of rows;
  * fallible pandas/python operations return `Except PyErr _` where the
    `PyErr` constructors mirror the exception classes the source code
    raises and catches.
-/

/-- A cell value of a pandas DataFrame as used by this program: a string,
a (rational-valued) number, or one of the IEEE special values that
numpy division can produce (`NaN`, `inf`, `-inf`). -/
inductive Value where
  | str (s : String)
  | num (q : ℚ)
  | nan
  | inf
  | neginf
deriving DecidableEq, Repr

/-- The Python exception classes that appear in the source:
`pd.errors.EmptyDataError`, `FileNotFoundError`, `pd.errors.ParserError`,
`KeyError` (caught in `DataLoader.load_data`), `ValueError`,
`PermissionError` (the latter two caught in `save_as_excel`;
`ValueError` is also what `pd.read_csv` raises for a `usecols` entry
missing from the file), and `TypeError` (raised by dividing
non-numeric data; never caught). -/
inductive PyErr where
  | emptyData
  | fileNotFound
  | parserError
  | keyError
  | valueError
  | permissionError
  | typeError
deriving DecidableEq, Repr

/-- A pandas DataFrame: named columns and a list of rows.  Each row is a
list of cells, positionally aligned with `columns`.  The implicit
positional row index of pandas is the list position. -/
structure DataFrame where
  columns : List String
  rows : List (List Value)
deriving DecidableEq, Repr

/-- Index of a named column, as pandas column lookup (`df['name']`)
finds it: the first position whose label equals the name. -/
def colIdx (df : DataFrame) (name : String) : Option Nat :=
  df.columns.findIdx? (fun c => c == name)

/-- Division of two cells with numpy float semantics, as in
`df['Annual'] / df['minutes']`:
  * number / nonzero number is exact division;
  * positive / 0 is `inf`, negative / 0 is `-inf`, 0 / 0 is `NaN`;
  * `NaN` in either operand gives `NaN`;
  * finite / ±`inf` is 0, ±`inf` / finite keeps the (sign-adjusted)
    infinity, ±`inf` / ±`inf` is `NaN`;
  * a string operand is a Python `TypeError` (modelled as `none`). -/
def vdiv : Value → Value → Option Value
  | Value.num a, Value.num b =>
      some (if b ≠ 0 then Value.num (a / b)
            else if 0 < a then Value.inf
            else if a < 0 then Value.neginf
            else Value.nan)
  | Value.num _, Value.nan => some Value.nan
  | Value.num _, Value.inf => some (Value.num 0)
  | Value.num _, Value.neginf => some (Value.num 0)
  | Value.nan, Value.num _ => some Value.nan
  | Value.nan, Value.nan => some Value.nan
  | Value.nan, Value.inf => some Value.nan
  | Value.nan, Value.neginf => some Value.nan
  | Value.inf, Value.num b => some (if b < 0 then Value.neginf else Value.inf)
  | Value.inf, Value.nan => some Value.nan
  | Value.inf, Value.inf => some Value.nan
  | Value.inf, Value.neginf => some Value.nan
  | Value.neginf, Value.num b => some (if b < 0 then Value.inf else Value.neginf)
  | Value.neginf, Value.nan => some Value.nan
  | Value.neginf, Value.inf => some Value.nan
  | Value.neginf, Value.neginf => some Value.nan
  | _, _ => none

/-- `left.merge(right, left_on=lkey, right_on=rkey, how='left')`
(src/main.py lines 35-38).  Every left row is paired with each right
row whose `rkey` cell equals its `lkey` cell; a left row with no match
is kept once, with the right columns filled with `NaN`.  Unmatched
right rows are dropped.  Result columns are the left columns followed
by the right columns (the joined tables here have disjoint column
names, so pandas' `_x`/`_y` collision suffixing never fires and is not
modelled).  A missing key column raises `KeyError`. -/
def mergeLeft (l r : DataFrame) (lkey rkey : String) : Except PyErr DataFrame :=
  match colIdx l lkey, colIdx r rkey with
  | some li, some ri =>
      Except.ok
        { columns := l.columns ++ r.columns
          rows := l.rows.flatMap (fun lrow =>
            let ms := r.rows.filter
              (fun rrow => rrow.getD ri Value.nan == lrow.getD li Value.nan)
            if ms.isEmpty then
              [lrow ++ List.replicate r.columns.length Value.nan]
            else
              ms.map (fun rrow => lrow ++ rrow)) }
  | _, _ => Except.error PyErr.keyError

/-- Extend each row with the quotient of its cells at positions `ai`
and `mi`; `none` when any row raises `TypeError`. -/
def divRows (ai mi : Nat) : List (List Value) → Option (List (List Value))
  | [] => some []
  | row :: rest =>
      match vdiv (row.getD ai Value.nan) (row.getD mi Value.nan) with
      | none => none
      | some v =>
          match divRows ai mi rest with
          | none => none
          | some rest' => some ((row ++ [v]) :: rest')

/-- `df[newCol] = df[aCol] / df[bCol]` (src/main.py line 40): append a
derived column equal to the row-wise quotient.  A missing source column
raises `KeyError`; non-numeric data raises `TypeError`. -/
def addDivCol (df : DataFrame) (newCol aCol bCol : String) : Except PyErr DataFrame :=
  match colIdx df aCol, colIdx df bCol with
  | some ai, some mi =>
      match divRows ai mi df.rows with
      | none => Except.error PyErr.typeError
      | some rows' => Except.ok { columns := df.columns ++ [newCol], rows := rows' }
  | _, _ => Except.error PyErr.keyError

/-- `str.lower()`: lower-case every character (the column labels here
are ASCII, where Python's Unicode lower-casing and per-character ASCII
lower-casing agree). -/
def pyLower (s : String) : String :=
  String.mk (s.data.map Char.toLower)

/-- `str.replace(a, b)` for one-character pattern and replacement:
substitute every occurrence. -/
def pyReplaceChar (s : String) (a b : Char) : String :=
  String.mk (s.data.map (fun c => if c = a then b else c))

/-- `df.columns = df.columns.str.lower().str.replace(' ', '_')`
(src/main.py line 43). -/
def renameCols (df : DataFrame) : DataFrame :=
  { df with columns := df.columns.map (fun s => pyReplaceChar (pyLower s) ' ' '_') }

/-- `df[[...]]` column projection (src/main.py line 44): keep exactly
the requested columns, in the requested order; a missing column raises
a lookup error (`KeyError`). -/
def project (df : DataFrame) (names : List String) : Except PyErr DataFrame :=
  match names.mapM (colIdx df) with
  | none => Except.error PyErr.keyError
  | some idxs =>
      Except.ok { columns := names
                  rows := df.rows.map (fun row => idxs.map (fun i => row.getD i Value.nan)) }

/-- `data_loader.datasets[name]` (src/main.py lines 31-32): Python dict
lookup, raising `KeyError` when the dataset is absent. -/
def lookupDF (datasets : List (String × DataFrame)) (name : String) : Except PyErr DataFrame :=
  match datasets.lookup name with
  | some df => Except.ok df
  | none => Except.error PyErr.keyError

/-- The report-building body of `player_salary_on_play_time`
(src/main.py lines 31-44, after `load_data` has populated the dataset
collection and before `save_as_excel`).  The dataset collection is
threaded through explicitly so that effects on it are visible: each
pandas step (`merge`, derived-column assignment on the merged frame,
renaming the merged frame's columns, projection) builds or rewrites
only the fresh frame `df`, so the collection is returned as it came. -/
def build_report (datasets : List (String × DataFrame)) :
    Except PyErr (DataFrame × List (String × DataFrame)) := do
  let player_stats ← lookupDF datasets "player_stats"
  let player_salary ← lookupDF datasets "player_salaries"
  let df ← mergeLeft player_stats player_salary "name" "Player"
  let df ← addDivCol df "salary_per_minute" "Annual" "minutes"
  let df := renameCols df
  let df ← project df ["name", "team", "age", "nation", "position", "minutes",
                       "salary_per_minute"]
  Except.ok (df, datasets)

/-- A `pathlib.Path`: an absolute-anchor flag and the list of path
components.  Only the structure the source exercises is modelled
(`is_absolute`, `parent`, the `/` join, `suffix`, `with_suffix`). -/
structure PyPath where
  absolute : Bool
  components : List String
deriving DecidableEq, Repr

/-- `Path.parent`: drop the last component (the root / a bare relative
path is its own parent, matching pathlib). -/
def PyPath.parent (p : PyPath) : PyPath :=
  { p with components := p.components.dropLast }

/-- `p / q` for a relative `q`: append components, keeping `p`'s
anchor. -/
def PyPath.join (p : PyPath) (cs : List String) : PyPath :=
  { p with components := p.components ++ cs }

namespace DataLoader

/-- `DataLoader.__get_dataset_path` (src/utils/data.py lines 56-69):
an absolute configured path is used as-is; a relative one is resolved
as `Path.cwd().parent / 'Datasets' / path`. -/
def get_dataset_path (cwd : PyPath) (path : PyPath) : PyPath :=
  if path.absolute then path
  else ((cwd.parent).join ["Datasets"]).join path.components

end DataLoader

/-- Content the filesystem can hold at a path, as far as `pd.read_csv`
distinguishes it: a parsable delimited file (header row naming the
columns, then data rows, each row positionally aligned with the
header), a file with no data at all, or text that fails the CSV
parser. -/
inductive FileContent where
  | csv (header : List String) (rows : List (List Value))
  | empty
  | malformed
deriving DecidableEq, Repr

/-- A filesystem: what content, if any, each path holds. -/
def FileSystem : Type := PyPath → Option FileContent

/-- `pd.read_csv(target_path, usecols=cols)` (src/utils/data.py line
47): `FileNotFoundError` for a missing file, `EmptyDataError` for an
empty one, `ParserError` for unparsable text, `ValueError` when a
`usecols` entry is not among the file's columns.  Otherwise the result
keeps exactly the columns listed in `usecols`, in the order they
appear in the FILE's header (pandas documents that the element order
of `usecols` is ignored), and all rows in file order. -/
def read_csv (fs : FileSystem) (p : PyPath) (usecols : List String) :
    Except PyErr DataFrame :=
  match fs p with
  | none => Except.error PyErr.fileNotFound
  | some FileContent.empty => Except.error PyErr.emptyData
  | some FileContent.malformed => Except.error PyErr.parserError
  | some (FileContent.csv header rows) =>
      if usecols.all (fun c => header.contains c) then
        let idxs := (List.range header.length).filter
          (fun i => usecols.contains (header.getD i ""))
        Except.ok { columns := header.filter (fun c => usecols.contains c)
                    rows := rows.map (fun row => idxs.map (fun i => row.getD i Value.nan)) }
      else Except.error PyErr.valueError

/-- One dataset entry of the YAML configuration: a file path and the
column list to retain. -/
structure DSConfig where
  path : PyPath
  columns : List String
deriving DecidableEq, Repr

/-- The `for dataset in self.config.keys()` loop body of
`DataLoader.load_data` (src/utils/data.py lines 45-49), run to the
first raised exception: returns the datasets stored before the raise
(insertion order = configuration order) and the exception, if any.
The `try` block wraps the WHOLE loop, so an exception stops the loop:
entries after the failing one are never read. -/
def loadLoop (fs : FileSystem) (cwd : PyPath) :
    List (String × DSConfig) → List (String × DataFrame) × Option PyErr
  | [] => ([], none)
  | (name, c) :: rest =>
      match read_csv fs (DataLoader.get_dataset_path cwd c.path) c.columns with
      | Except.ok df =>
          let (ds, e) := loadLoop fs cwd rest
          ((name, df) :: ds, e)
      | Except.error e => ([], some e)

/-- The exception classes `DataLoader.load_data` catches
(src/utils/data.py lines 50-53): `pd.errors.EmptyDataError`,
`FileNotFoundError`, `pd.errors.ParserError`, `KeyError`.  Note that
`ValueError` — what `pd.read_csv` raises for a missing `usecols`
column — is NOT among them. -/
def caughtByLoader : PyErr → Bool
  | PyErr.emptyData => true
  | PyErr.fileNotFound => true
  | PyErr.parserError => true
  | PyErr.keyError => true
  | _ => false

namespace DataLoader

/-- `DataLoader.load_data` (src/utils/data.py lines 37-53) on a fresh
loader (`self.datasets = {}` from `__init__`): run the loading loop;
a caught exception is logged and swallowed, leaving the datasets
stored so far; any other exception propagates to the caller. -/
def load_data (fs : FileSystem) (cwd : PyPath) (config : List (String × DSConfig)) :
    Except PyErr (List (String × DataFrame)) :=
  match loadLoop fs cwd config with
  | (ds, none) => Except.ok ds
  | (ds, some e) => if caughtByLoader e then Except.ok ds else Except.error e

end DataLoader

/-- `Path(name).suffix` for the final path component `name` (CPython
pathlib): the substring from the last dot, provided that dot is
neither the first character nor the last one; otherwise the empty
string. -/
def pySuffixLen (cs : List Char) : Nat :=
  (cs.reverse.takeWhile (fun c => c ≠ '.')).length

def pySuffixChars (cs : List Char) : List Char :=
  if cs.contains '.' ∧ 0 < pySuffixLen cs ∧ pySuffixLen cs + 1 < cs.length
  then cs.drop (cs.length - (pySuffixLen cs + 1))
  else []

/-- `Path(s).suffix` on a path whose final component is `s`. -/
def pySuffix (s : String) : String :=
  String.mk (pySuffixChars s.data)

/-- `Path(s).with_suffix(suffix)` (CPython pathlib): drop the current
suffix, if any, and append the new one. -/
def pyWithSuffix (s suffix : String) : String :=
  String.mk (s.data.take (s.data.length - (pySuffix s).data.length)) ++ suffix

/-- What a spreadsheet write attempt does: succeeds, or raises the
given Python exception.  Abstracts `data.to_excel(file_path,
engine='openpyxl', **kwargs)` together with the preceding `mkdir`. -/
def ExcelWriter : Type := String → Except PyErr Unit

/-- `save_as_excel(data, file_path, **kwargs)` (src/utils/data.py
lines 87-109): normalise the extension (append `.xlsx` when the
lower-cased suffix differs from `'.xlsx'`, replacing any current
suffix), then write.  `ValueError`, `FileNotFoundError` and
`PermissionError` are caught, logged and swallowed; the function then
returns normally.  On a normal return the result carries the path the
write was attempted at.  (The `mkdir(parents=True, exist_ok=True)`
side effect and the `index=False` default are folded into the writer
abstraction: neither affects the path computation or the error
policy.)

`normalizeXlsx` is the extension-normalisation step (src/utils/data.py
lines 98-100): when the lower-cased suffix of `file_path` differs from
`'.xlsx'`, replace the suffix via `with_suffix('.xlsx')`; otherwise
keep the path exactly as supplied. -/
def normalizeXlsx (file_path : String) : String :=
  if pyLower (pySuffix file_path) ≠ ".xlsx"
  then pyWithSuffix file_path ".xlsx"
  else file_path

/-- The body of `save_as_excel` (src/utils/data.py lines 97-109):
normalise the path, attempt the write there, swallow the three caught
exception classes.  A normal return carries the path the write was
attempted at. -/
def save_as_excel (write : ExcelWriter) (file_path : String) : Except PyErr String :=
  let fp := normalizeXlsx file_path
  match write fp with
  | Except.ok _ => Except.ok fp
  | Except.error e =>
      if e = PyErr.valueError ∨ e = PyErr.fileNotFound ∨ e = PyErr.permissionError
      then Except.ok fp
      else Except.error e

/-- `player_salary_on_play_time(config_file)` (src/main.py lines
16-46) end to end: load the configured datasets, build the report,
export it to `player_salary_report.xlsx`.  (Reading the YAML file in
`DataLoader.__init__` is abstracted to the already-parsed `config`;
a parse failure there propagates before any of this runs.) -/
def player_salary_on_play_time (fs : FileSystem) (cwd : PyPath) (write : ExcelWriter)
    (config : List (String × DSConfig)) : Except PyErr DataFrame := do
  let datasets ← DataLoader.load_data fs cwd config
  let (df, _) ← build_report datasets
  let _ ← save_as_excel write "player_salary_report.xlsx"
  Except.ok df

/-! ### Concrete inputs used by the counterexamples and witnesses -/

/-- The `player_stats` table of the spec's worked scenario (§8):
one row `("Alice","TeamA",22,"USA","FW",900)`. -/
def c4Stats : DataFrame :=
  { columns := ["name", "team", "age", "nation", "position", "minutes"]
    rows := [[Value.str "Alice", Value.str "TeamA", Value.num 22, Value.str "USA",
              Value.str "FW", Value.num 900]] }

/-- The `player_salaries` table of the spec's worked scenario:
one row `("Alice",900000)`. -/
def c4Salaries : DataFrame :=
  { columns := ["Player", "Annual"]
    rows := [[Value.str "Alice", Value.num 900000]] }

/-- The expected report of the worked scenario. -/
def c4Report : DataFrame :=
  { columns := ["name", "team", "age", "nation", "position", "minutes", "salary_per_minute"]
    rows := [[Value.str "Alice", Value.str "TeamA", Value.num 22, Value.str "USA",
              Value.str "FW", Value.num 900, Value.num 1000]] }

/-- A one-row left table for the join-cardinality counterexample. -/
def c1LeftOne : DataFrame :=
  { columns := ["name", "minutes"], rows := [[Value.str "A", Value.num 90]] }

/-- A right table whose join key `"A"` occurs twice. -/
def c1RightDup : DataFrame :=
  { columns := ["Player", "Annual"]
    rows := [[Value.str "A", Value.num 1], [Value.str "A", Value.num 2]] }

/-- A two-row left table (one key matched, one unmatched). -/
def c1Left : DataFrame :=
  { columns := ["name", "minutes"]
    rows := [[Value.str "A", Value.num 90], [Value.str "B", Value.num 45]] }

/-- A right table with pairwise-distinct join keys. -/
def c1RightUniq : DataFrame :=
  { columns := ["Player", "Annual"]
    rows := [[Value.str "A", Value.num 1], [Value.str "C", Value.num 2]] }

/-- The left join of `c1Left` with `c1RightUniq`: the `"A"` row is
matched once, the `"B"` row is kept with `NaN` salary fields. -/
def c1MergedUniq : DataFrame :=
  { columns := ["name", "minutes", "Player", "Annual"]
    rows := [[Value.str "A", Value.num 90, Value.str "A", Value.num 1],
             [Value.str "B", Value.num 45, Value.nan, Value.nan]] }

/-- The merged (pre-derivation) row of the worked scenario: the
`player_stats` cells followed by the matched `player_salaries`
cells. -/
def c5AliceRow : List Value :=
  [Value.str "Alice", Value.str "TeamA", Value.num 22, Value.str "USA", Value.str "FW",
   Value.num 900, Value.str "Alice", Value.num 900000]

/-- The merged frame of the worked scenario (columns `name, team, age,
nation, position, minutes, Player, Annual`; `Annual` at index 7,
`minutes` at index 5). -/
def c5Merged : DataFrame :=
  { columns := ["name", "team", "age", "nation", "position", "minutes", "Player", "Annual"]
    rows := [c5AliceRow] }

/-- `c5Merged` with the derived `salary_per_minute` column appended. -/
def c5Out : DataFrame :=
  { columns := ["name", "team", "age", "nation", "position", "minutes", "Player", "Annual",
                "salary_per_minute"]
    rows := [c5AliceRow ++ [Value.num ((900000 : ℚ) / 900)]] }

/-- A salary table whose only `Player` does not occur in
`player_stats` — the Alice row is then left-joined against no match. -/
def c10Salaries : DataFrame :=
  { columns := ["Player", "Annual"], rows := [[Value.str "Bob", Value.num 5]] }

/-- The report built from `c4Stats` and `c10Salaries`: the unmatched
Alice row is kept, with a `NaN` salary-per-minute. -/
def c10Report : DataFrame :=
  { columns := ["name", "team", "age", "nation", "position", "minutes", "salary_per_minute"]
    rows := [[Value.str "Alice", Value.str "TeamA", Value.num 22, Value.str "USA",
              Value.str "FW", Value.num 900, Value.nan]] }

/-- A working directory for the loader scenarios. -/
def cwdDemo : PyPath := { absolute := true, components := ["home", "user", "proj"] }

/-- Relative configured paths for the loader scenarios. -/
def pStats : PyPath := { absolute := false, components := ["stats.csv"] }

def pSal : PyPath := { absolute := false, components := ["sal.csv"] }

def pExtra : PyPath := { absolute := false, components := ["extra.csv"] }

/-- A filesystem on which `sal.csv` and `extra.csv` exist but
`stats.csv` does not. -/
def fsMissingStats : FileSystem := fun p =>
  if p = DataLoader.get_dataset_path cwdDemo pSal then
    some (FileContent.csv ["Player", "Annual"] [[Value.str "Alice", Value.num 900000]])
  else if p = DataLoader.get_dataset_path cwdDemo pExtra then
    some (FileContent.csv ["x"] [[Value.num 1]])
  else none

/-- A filesystem on which `stats.csv` exists with columns `a`, `b`. -/
def fsAB : FileSystem := fun p =>
  if p = DataLoader.get_dataset_path cwdDemo pStats then
    some (FileContent.csv ["a", "b"] [[Value.num 1, Value.num 2]])
  else none

/-- A configuration that lists the missing `stats.csv` first and the
readable `sal.csv` second. -/
def cfgMissingFirst : List (String × DSConfig) :=
  [("player_stats", { path := pStats, columns := ["name", "minutes"] }),
   ("player_salaries", { path := pSal, columns := ["Player", "Annual"] })]

/-- A configuration with a readable dataset first, the missing
`stats.csv` second and another readable dataset third. -/
def cfgGoodBadGood : List (String × DSConfig) :=
  [("player_salaries", { path := pSal, columns := ["Player", "Annual"] }),
   ("player_stats", { path := pStats, columns := ["name", "minutes"] }),
   ("extra", { path := pExtra, columns := ["x"] })]

/-- A configuration asking `stats.csv` for a column `f` that its
header does not contain. -/
def cfgBadColumn : List (String × DSConfig) :=
  [("player_stats", { path := pStats, columns := ["a", "f"] })]

/-- A configuration asking for `stats.csv`'s columns in the order
`[b, a]`, the reverse of the file's header order. -/
def cfgReversed : List (String × DSConfig) :=
  [("d", { path := pStats, columns := ["b", "a"] })]

/-- A writer that always succeeds. -/
def writerOk : ExcelWriter := fun _ => Except.ok ()

/-- A writer that always raises `PermissionError`. -/
def writerPerm : ExcelWriter := fun _ => Except.error PyErr.permissionError

instance {ε α : Type} [DecidableEq ε] [DecidableEq α] : DecidableEq (Except ε α) := fun x y =>
  match x, y with
  | Except.ok a, Except.ok b =>
      if h : a = b then isTrue (by rw [h]) else isFalse (fun hc => h (Except.ok.inj hc))
  | Except.ok _, Except.error _ => isFalse (fun hc => Except.noConfusion hc)
  | Except.error _, Except.ok _ => isFalse (fun hc => Except.noConfusion hc)
  | Except.error e, Except.error f =>
      if h : e = f then isTrue (by rw [h]) else isFalse (fun hc => h (Except.error.inj hc))

/-! ### Helper lemmas -/

/-- A `flatMap` each of whose pieces has exactly one element preserves
length. -/
theorem flatMap_length_one {α β : Type} (f : α → List β) :
    ∀ xs : List α, (∀ a ∈ xs, (f a).length = 1) → (xs.flatMap f).length = xs.length
  | [], _ => rfl
  | x :: xs, h => by
      rw [List.flatMap_cons, List.length_append, h x (List.mem_cons_self x xs),
        flatMap_length_one f xs (fun a ha => h a (List.mem_cons_of_mem x ha)),
        List.length_cons]
      omega

/-- If the images of `g` over `xs` are pairwise distinct, at most one
element of `xs` satisfies a predicate testing for image `k`. -/
theorem length_filter_key_le_one {α β : Type} [DecidableEq β] (p : α → Bool) (g : α → β)
    (k : β) (hp : ∀ x, p x = (g x == k)) :
    ∀ xs : List α, (xs.map g).Nodup → (xs.filter p).length ≤ 1
  | [], _ => by simp
  | x :: xs, h => by
      rw [List.map_cons, List.nodup_cons] at h
      by_cases hx : g x = k
      · have hnil : xs.filter p = [] := by
          rw [List.filter_eq_nil_iff]
          intro a ha hak
          rw [hp a, beq_iff_eq] at hak
          exact h.1 (by rw [← hak.trans hx.symm]; exact List.mem_map_of_mem g ha)
        rw [List.filter_cons_of_pos (by rw [hp x, beq_iff_eq]; exact hx), hnil]
        exact Nat.le_refl 1
      · rw [List.filter_cons_of_neg (by rw [hp x, beq_iff_eq]; exact hx)]
        exact length_filter_key_le_one p g k hp xs h.2

/-! ### C4: the worked scenario of spec §8 -/

/-- C4 (confirmed).  For the spec's worked scenario — `player_stats`
holding the single row `("Alice","TeamA",22,"USA","FW",900)` and
`player_salaries` the single row `("Alice",900000)` — the report body
of `player_salary_on_play_time` produces exactly one row `name=Alice,
team=TeamA, age=22, nation=USA, position=FW, minutes=900,
salary_per_minute=1000`, with columns in the order `name, team, age,
nation, position, minutes, salary_per_minute` (and leaves the dataset
collection unchanged). -/
theorem c4_alice_scenario :
    build_report [("player_stats", c4Stats), ("player_salaries", c4Salaries)] =
      Except.ok (c4Report, [("player_stats", c4Stats), ("player_salaries", c4Salaries)]) := by
  have h1 : build_report [("player_stats", c4Stats), ("player_salaries", c4Salaries)] =
      Except.ok
        ({ columns := ["name", "team", "age", "nation", "position", "minutes",
                       "salary_per_minute"]
           rows := [[Value.str "Alice", Value.str "TeamA", Value.num 22, Value.str "USA",
                     Value.str "FW", Value.num 900, Value.num ((900000 : ℚ) / 900)]] },
         [("player_stats", c4Stats), ("player_salaries", c4Salaries)]) := rfl
  have hdiv : (900000 : ℚ) / 900 = 1000 := by norm_num
  rw [h1, hdiv]
  rfl

/-! ### C1: left-join row count -/

/-- C1 (counterexample).  The claim fails when the right table repeats
a join key: a left table with one row joined against a right table
whose key `"A"` occurs twice yields two rows, not one. -/
theorem c1_duplicate_key_counterexample :
    (mergeLeft c1LeftOne c1RightDup "name" "Player").map (fun m => m.rows.length) =
      Except.ok 2 ∧ c1LeftOne.rows.length = 1 := by
  decide

/-- C1 (amended).  The left join's row count equals the left table's
row count provided the right table's join-key values are pairwise
distinct; in general each left row contributes one output row per
matching right row (at least one). -/
theorem c1_left_join_row_count (l r : DataFrame) (li ri : Nat) (m : DataFrame)
    (hli : colIdx l "name" = some li) (hri : colIdx r "Player" = some ri)
    (hnd : (r.rows.map (fun row => row.getD ri Value.nan)).Nodup)
    (hm : mergeLeft l r "name" "Player" = Except.ok m) :
    m.rows.length = l.rows.length := by
  unfold mergeLeft at hm
  rw [hli, hri] at hm
  cases hm
  apply flatMap_length_one
  intro lrow _
  by_cases he :
      (r.rows.filter
        (fun rrow => rrow.getD ri Value.nan == lrow.getD li Value.nan)).isEmpty = true
  · rw [if_pos he]
    rfl
  · rw [if_neg he, List.length_map]
    have hle := length_filter_key_le_one
      (fun rrow => rrow.getD ri Value.nan == lrow.getD li Value.nan)
      (fun row => row.getD ri Value.nan) (lrow.getD li Value.nan) (fun _ => rfl) r.rows hnd
    have hpos : 0 <
        (r.rows.filter
          (fun rrow => rrow.getD ri Value.nan == lrow.getD li Value.nan)).length := by
      rw [List.isEmpty_iff] at he
      exact List.length_pos.mpr he
    omega

/-- Witness for `c1_left_join_row_count` at concrete tables with
pairwise-distinct right keys. -/
theorem c1_left_join_row_count_witness :
    c1MergedUniq.rows.length = c1Left.rows.length :=
  c1_left_join_row_count c1Left c1RightUniq 0 0 c1MergedUniq (by decide) (by decide)
    (by decide) (by decide)

/-! ### C2 / C3: `DataLoader.load_data` -/

/-- A loading loop whose first entry succeeds, stated as one unfolding
step. -/
theorem loadLoop_cons_ok (fs : FileSystem) (cwd : PyPath) (name : String) (c : DSConfig)
    (df : DataFrame)
    (hread : read_csv fs (DataLoader.get_dataset_path cwd c.path) c.columns = Except.ok df)
    (l : List (String × DSConfig)) :
    loadLoop fs cwd ((name, c) :: l) =
      ((name, df) :: (loadLoop fs cwd l).1, (loadLoop fs cwd l).2) := by
  rcases hl : loadLoop fs cwd l with ⟨ds, e⟩
  simp [loadLoop, hread, hl]

/-- A loading loop whose first entry raises stops at once: nothing is
stored, and the exception is reported. -/
theorem loadLoop_cons_err (fs : FileSystem) (cwd : PyPath) (name : String) (c : DSConfig)
    (e : PyErr)
    (hread : read_csv fs (DataLoader.get_dataset_path cwd c.path) c.columns = Except.error e)
    (l : List (String × DSConfig)) :
    loadLoop fs cwd ((name, c) :: l) = ([], some e) := by
  simp [loadLoop, hread]

/-- Splitting the loading loop after a successful prefix. -/
theorem loadLoop_append (fs : FileSystem) (cwd : PyPath) :
    ∀ (pre rest : List (String × DSConfig)) (loaded : List (String × DataFrame)),
      loadLoop fs cwd pre = (loaded, none) →
      loadLoop fs cwd (pre ++ rest) =
        (loaded ++ (loadLoop fs cwd rest).1, (loadLoop fs cwd rest).2)
  | [], rest, loaded, h => by
      have h1 : loaded = [] := by
        have h2 := congrArg Prod.fst h
        simpa [loadLoop] using h2.symm
      subst h1
      simp
  | (name, c) :: pre, rest, loaded, h => by
      cases hread : read_csv fs (DataLoader.get_dataset_path cwd c.path) c.columns with
      | error e =>
          rw [loadLoop_cons_err fs cwd name c e hread pre] at h
          have h2 := congrArg Prod.snd h
          simp at h2
      | ok df =>
          rcases hlp : loadLoop fs cwd pre with ⟨ds, e⟩
          rw [loadLoop_cons_ok fs cwd name c df hread pre, hlp] at h
          rw [Prod.mk.injEq] at h
          obtain ⟨hl, he⟩ := h
          simp only at hl he
          subst he
          subst hl
          rw [List.cons_append, loadLoop_cons_ok fs cwd name c df hread (pre ++ rest),
            loadLoop_append fs cwd pre rest ds hlp]
          simp

/-- C2 (amended).  When an entry of the configuration fails to read
with one of the error kinds `load_data` catches (missing file, parse
error, empty file — or a `KeyError`), `load_data` logs and swallows
the error and returns normally; the dataset collection then holds
exactly the datasets configured BEFORE the failing entry.  The failing
entry and every entry configured after it are absent, because the
`try` block wraps the whole loading loop.  (A missing configured
column is not such an error kind: `pd.read_csv` raises `ValueError`
for it, which `load_data` does not catch — see the counterexample.) -/
theorem c2_load_data_stops_at_failure (fs : FileSystem) (cwd : PyPath)
    (pre post : List (String × DSConfig)) (name : String) (c : DSConfig) (e : PyErr)
    (loaded : List (String × DataFrame))
    (hpre : loadLoop fs cwd pre = (loaded, none))
    (hbad : read_csv fs (DataLoader.get_dataset_path cwd c.path) c.columns = Except.error e)
    (hcaught : caughtByLoader e = true) :
    DataLoader.load_data fs cwd (pre ++ (name, c) :: post) = Except.ok loaded := by
  unfold DataLoader.load_data
  rw [loadLoop_append fs cwd pre ((name, c) :: post) loaded hpre,
    loadLoop_cons_err fs cwd name c e hbad post]
  simp [hcaught]

/-- C2 (counterexample).  The claim fails on the code in two ways.
With `player_stats` (missing file) configured first and the readable
`player_salaries` second, `load_data` returns normally but the
collection is empty: `player_salaries` is missing too, although only
`player_stats` failed.  And when the single configured dataset fails
because a configured column is absent from the file, the resulting
`ValueError` is not caught: `load_data` raises to its caller. -/
theorem c2_failure_counterexample :
    DataLoader.load_data fsMissingStats cwdDemo cfgMissingFirst = Except.ok [] ∧
    DataLoader.load_data fsAB cwdDemo cfgBadColumn = Except.error PyErr.valueError := by
  decide

/-- Witness for `c2_load_data_stops_at_failure`: a readable dataset,
then a missing file, then another readable dataset; only the first is
loaded. -/
theorem c2_load_data_stops_at_failure_witness :
    DataLoader.load_data fsMissingStats cwdDemo cfgGoodBadGood =
      Except.ok [("player_salaries", c4Salaries)] :=
  c2_load_data_stops_at_failure fsMissingStats cwdDemo
    [("player_salaries", { path := pSal, columns := ["Player", "Annual"] })]
    [("extra", { path := pExtra, columns := ["x"] })]
    "player_stats" { path := pStats, columns := ["name", "minutes"] }
    PyErr.fileNotFound [("player_salaries", c4Salaries)]
    (by decide) (by decide) (by decide)

/-- A loading loop over a configuration all of whose entries resolve
to parsable files containing the configured columns finishes without
an exception and stores a table for every entry. -/
theorem loadLoop_all_ok (fs : FileSystem) (cwd : PyPath) :
    ∀ config : List (String × DSConfig),
      (∀ nc ∈ config, ∃ header rows,
        fs (DataLoader.get_dataset_path cwd nc.2.path) = some (FileContent.csv header rows) ∧
        ∀ col ∈ nc.2.columns, header.contains col = true) →
      (loadLoop fs cwd config).2 = none ∧
      ∀ nc ∈ config, ∃ df, (nc.1, df) ∈ (loadLoop fs cwd config).1 ∧
        read_csv fs (DataLoader.get_dataset_path cwd nc.2.path) nc.2.columns = Except.ok df
  | [], _ => by simp [loadLoop]
  | (name, c) :: config, h => by
      obtain ⟨header, rows, hfs, hcols⟩ := h (name, c) (List.mem_cons_self _ _)
      have hca : (c.columns.all fun col => header.contains col) = true :=
        List.all_eq_true.mpr hcols
      have hread : ∃ df,
          read_csv fs (DataLoader.get_dataset_path cwd c.path) c.columns = Except.ok df := by
        simp only [read_csv, hfs, hca, if_true]
        exact ⟨_, rfl⟩
      obtain ⟨df, hread⟩ := hread
      obtain ⟨ih1, ih2⟩ := loadLoop_all_ok fs cwd config
        (fun nc hnc => h nc (List.mem_cons_of_mem _ hnc))
      rw [loadLoop_cons_ok fs cwd name c df hread config]
      refine ⟨ih1, ?_⟩
      intro nc hnc
      rcases List.mem_cons.mp hnc with heq | htl
      · subst heq
        exact ⟨df, List.mem_cons_self _ _, hread⟩
      · obtain ⟨df', hmem, hread'⟩ := ih2 nc htl
        exact ⟨df', List.mem_cons_of_mem _ hmem, hread'⟩

/-- C3 (amended).  For a configuration all of whose entries name
existing, parsable files whose headers contain the configured columns,
`load_data` returns normally, every configured dataset name maps to a
table in the collection, and each table's column sequence consists of
exactly the configured columns — but in the order those columns appear
in the FILE's header (pandas ignores the element order of `usecols`),
not necessarily in the configured order. -/
theorem c3_load_data_success_columns (fs : FileSystem) (cwd : PyPath)
    (config : List (String × DSConfig))
    (h : ∀ nc ∈ config, ∃ header rows,
      fs (DataLoader.get_dataset_path cwd nc.2.path) = some (FileContent.csv header rows) ∧
      ∀ col ∈ nc.2.columns, header.contains col = true) :
    ∃ ds, DataLoader.load_data fs cwd config = Except.ok ds ∧
      ∀ nc ∈ config, ∃ header rows df,
        fs (DataLoader.get_dataset_path cwd nc.2.path) = some (FileContent.csv header rows) ∧
        (nc.1, df) ∈ ds ∧
        df.columns = header.filter (fun col => nc.2.columns.contains col) := by
  rcases hl : loadLoop fs cwd config with ⟨ds, e⟩
  obtain ⟨hnone, hmem⟩ := loadLoop_all_ok fs cwd config h
  rw [hl] at hnone hmem
  have he : e = none := hnone
  subst he
  refine ⟨ds, ?_, ?_⟩
  · unfold DataLoader.load_data
    rw [hl]
  · intro nc hnc
    obtain ⟨df, hdfmem, hread⟩ := hmem nc hnc
    obtain ⟨header, rows, hfs, hcols⟩ := h nc hnc
    refine ⟨header, rows, df, hfs, hdfmem, ?_⟩
    have hca : (nc.2.columns.all fun col => header.contains col) = true :=
      List.all_eq_true.mpr hcols
    simp only [read_csv, hfs, hca, if_true] at hread
    cases hread
    rfl

/-- C3 (counterexample).  The claim's "in the configured order" part
fails: with configured columns `["b", "a"]` against a file whose
header reads `a,b`, the loaded table's columns are `["a", "b"]` — the
file's order, not the configured order. -/
theorem c3_column_order_counterexample :
    DataLoader.load_data fsAB cwdDemo cfgReversed =
      Except.ok [("d", { columns := ["a", "b"], rows := [[Value.num 1, Value.num 2]] })] ∧
    ["a", "b"] ≠ ["b", "a"] := by
  decide

/-- Witness for `c3_load_data_success_columns` on the one-dataset
configuration `cfgReversed` over `fsAB`. -/
theorem c3_load_data_success_columns_witness :
    ∃ ds, DataLoader.load_data fsAB cwdDemo cfgReversed = Except.ok ds ∧
      ∀ nc ∈ cfgReversed, ∃ header rows df,
        fsAB (DataLoader.get_dataset_path cwdDemo nc.2.path) =
          some (FileContent.csv header rows) ∧
        (nc.1, df) ∈ ds ∧
        df.columns = header.filter (fun col => nc.2.columns.contains col) :=
  c3_load_data_success_columns fsAB cwdDemo cfgReversed (by
    intro nc hnc
    rw [List.mem_singleton.mp hnc]
    exact ⟨["a", "b"], [[Value.num 1, Value.num 2]], by decide, by decide⟩)

/-! ### C5: the derived `salary_per_minute` column -/

/-- Division of two numeric cells with a nonzero divisor is exact
division. -/
theorem vdiv_num (a m : ℚ) (hm : m ≠ 0) :
    vdiv (Value.num a) (Value.num m) = some (Value.num (a / m)) := by
  simp [vdiv, hm]

/-- When the divisor cell is numeric zero or the dividend cell is
`NaN`, any defined quotient is one of the `NaN`/`±inf` markers. -/
theorem vdiv_marker (x y v : Value) (hxy : y = Value.num 0 ∨ x = Value.nan)
    (hv : vdiv x y = some v) :
    v = Value.nan ∨ v = Value.inf ∨ v = Value.neginf := by
  rcases hxy with hy | hx
  · subst hy
    cases x with
    | str s => exact absurd hv (by simp [vdiv])
    | nan => simp [vdiv] at hv; exact Or.inl hv.symm
    | inf => simp [vdiv] at hv; exact Or.inr (Or.inl hv.symm)
    | neginf => simp [vdiv] at hv; exact Or.inr (Or.inr hv.symm)
    | num a =>
        simp only [vdiv, Option.some.injEq] at hv
        rw [if_neg (by simp)] at hv
        subst hv
        by_cases h1 : 0 < a
        · rw [if_pos h1]; exact Or.inr (Or.inl rfl)
        · rw [if_neg h1]
          by_cases h2 : a < 0
          · rw [if_pos h2]; exact Or.inr (Or.inr rfl)
          · rw [if_neg h2]; exact Or.inl rfl
  · subst hx
    cases y with
    | str s => exact absurd hv (by simp [vdiv])
    | num a => simp [vdiv] at hv; exact Or.inl hv.symm
    | nan => simp [vdiv] at hv; exact Or.inl hv.symm
    | inf => simp [vdiv] at hv; exact Or.inl hv.symm
    | neginf => simp [vdiv] at hv; exact Or.inl hv.symm

/-- Each row of a successful `divRows` run is a source row extended
with its quotient cell. -/
theorem divRows_mem (ai mi : Nat) :
    ∀ (rows rows' : List (List Value)), divRows ai mi rows = some rows' →
      ∀ row ∈ rows', ∃ row₀ v, row₀ ∈ rows ∧
        vdiv (row₀.getD ai Value.nan) (row₀.getD mi Value.nan) = some v ∧
        row = row₀ ++ [v]
  | [], rows', h => by
      simp only [divRows, Option.some.injEq] at h
      subst h
      simp
  | r :: rest, rows', h => by
      cases hv : vdiv (r.getD ai Value.nan) (r.getD mi Value.nan) with
      | none =>
          simp only [divRows, hv] at h
          exact Option.noConfusion h
      | some v =>
          cases hrest : divRows ai mi rest with
          | none =>
              simp only [divRows, hv, hrest] at h
              exact Option.noConfusion h
          | some rest' =>
              simp only [divRows, hv, hrest, Option.some.injEq] at h
              subst h
              intro row hrow
              rcases List.mem_cons.mp hrow with heq | htl
              · exact ⟨r, v, List.mem_cons_self _ _, hv, heq⟩
              · obtain ⟨row₀, v', hmem, hv', heq⟩ :=
                  divRows_mem ai mi rest rest' hrest row htl
                exact ⟨row₀, v', List.mem_cons_of_mem _ hmem, hv', heq⟩

/-- C5 (confirmed).  Every row of the frame produced by the derived
column assignment `df['salary_per_minute'] = df['Annual'] /
df['minutes']` extends a source row with a quotient cell `v` such
that: when both `Annual` and `minutes` are present numbers and
`minutes ≠ 0`, `v` equals `Annual / minutes` exactly; and when
`minutes` is zero or `Annual` is null, `v` is a `NaN` or `±inf`
marker. -/
theorem c5_salary_per_minute (df df' : DataFrame) (ai mi : Nat)
    (hai : colIdx df "Annual" = some ai) (hmi : colIdx df "minutes" = some mi)
    (h : addDivCol df "salary_per_minute" "Annual" "minutes" = Except.ok df') :
    ∀ row ∈ df'.rows, ∃ row₀ v, row₀ ∈ df.rows ∧
      vdiv (row₀.getD ai Value.nan) (row₀.getD mi Value.nan) = some v ∧
      row = row₀ ++ [v] ∧
      (∀ a m : ℚ, row₀.getD ai Value.nan = Value.num a →
        row₀.getD mi Value.nan = Value.num m → m ≠ 0 → v = Value.num (a / m)) ∧
      ((row₀.getD mi Value.nan = Value.num 0 ∨ row₀.getD ai Value.nan = Value.nan) →
        v = Value.nan ∨ v = Value.inf ∨ v = Value.neginf) := by
  simp only [addDivCol, hai, hmi] at h
  cases hdr : divRows ai mi df.rows with
  | none =>
      simp only [hdr] at h
      exact Except.noConfusion h
  | some rows' =>
      simp only [hdr] at h
      cases h
      intro row hrow
      obtain ⟨row₀, v, hmem, hv, heq⟩ := divRows_mem ai mi df.rows rows' hdr row hrow
      refine ⟨row₀, v, hmem, hv, heq, ?_, ?_⟩
      · intro a m ha hm hm0
        rw [ha, hm, vdiv_num a m hm0] at hv
        exact (Option.some.inj hv).symm
      · intro hcond
        exact vdiv_marker _ _ v hcond hv

/-- Witness for `c5_salary_per_minute` on the worked scenario's merged
frame. -/
theorem c5_salary_per_minute_witness :
    ∃ row₀ v, row₀ ∈ c5Merged.rows ∧
      vdiv (row₀.getD 7 Value.nan) (row₀.getD 5 Value.nan) = some v ∧
      c5AliceRow ++ [Value.num ((900000 : ℚ) / 900)] = row₀ ++ [v] ∧
      (∀ a m : ℚ, row₀.getD 7 Value.nan = Value.num a →
        row₀.getD 5 Value.nan = Value.num m → m ≠ 0 → v = Value.num (a / m)) ∧
      ((row₀.getD 5 Value.nan = Value.num 0 ∨ row₀.getD 7 Value.nan = Value.nan) →
        v = Value.nan ∨ v = Value.inf ∨ v = Value.neginf) :=
  c5_salary_per_minute c5Merged c5Out 7 5 (by decide) (by decide) rfl
    (c5AliceRow ++ [Value.num ((900000 : ℚ) / 900)]) (List.mem_cons_self _ _)

/-! ### C6 / C7 / C9: `save_as_excel` -/

/-- The computed suffix really is a suffix: a character list splits as
its part before the suffix followed by the suffix. -/
theorem pySuffixChars_reassemble (cs : List Char) :
    cs.take (cs.length - (pySuffixChars cs).length) ++ pySuffixChars cs = cs := by
  unfold pySuffixChars
  split
  next hcond =>
    rw [List.length_drop]
    have h1 : pySuffixLen cs + 1 < cs.length := hcond.2.2
    have h2 : cs.length - (cs.length - (cs.length - (pySuffixLen cs + 1))) =
        cs.length - (pySuffixLen cs + 1) := by omega
    rw [h2, List.take_append_drop]
  next => simp

/-- C6 (confirmed).  For a path whose (lower-cased) suffix differs
from `.xlsx`, the path `save_as_excel` actually writes to is the
original path with its extension REPLACED by `.xlsx` — the stem before
the extension is kept and `.xlsx` follows it directly, nothing is
appended after the old extension; a path with no extension gains
`.xlsx`. -/
theorem c6_extension_replaced (p : String) (hnx : pyLower (pySuffix p) ≠ ".xlsx") :
    (pySuffix p ≠ "" →
      ∃ stem : String, p = stem ++ pySuffix p ∧ normalizeXlsx p = stem ++ ".xlsx") ∧
    (pySuffix p = "" → normalizeXlsx p = p ++ ".xlsx") ∧
    ∀ (w : ExcelWriter) (out : String), save_as_excel w p = Except.ok out →
      out = normalizeXlsx p := by
  have hn : normalizeXlsx p = pyWithSuffix p ".xlsx" := by
    unfold normalizeXlsx
    rw [if_pos hnx]
  refine ⟨?_, ?_, ?_⟩
  · intro _
    refine ⟨String.mk (p.data.take (p.data.length - (pySuffix p).data.length)), ?_, ?_⟩
    · exact (congrArg String.mk (pySuffixChars_reassemble p.data)).symm
    · rw [hn]
      rfl
  · intro hs
    have hd : (pySuffix p).data = [] := by rw [hs]
    rw [hn]
    unfold pyWithSuffix
    rw [hd]
    simp only [List.length_nil, Nat.sub_zero, List.take_length]
  · intro w out hok
    simp only [save_as_excel] at hok
    cases hw : w (normalizeXlsx p) with
    | ok u => simp only [hw] at hok; exact (Except.ok.inj hok).symm
    | error e =>
        simp only [hw] at hok
        split at hok
        · exact (Except.ok.inj hok).symm
        · exact Except.noConfusion hok

/-- Witness for `c6_extension_replaced` at the path `report.txt`:
its `.txt` extension is replaced, not appended. -/
theorem c6_extension_replaced_witness :
    ∃ stem : String, "report.txt" = stem ++ pySuffix "report.txt" ∧
      normalizeXlsx "report.txt" = stem ++ ".xlsx" :=
  (c6_extension_replaced "report.txt" (by decide)).1 (by decide)

/-- C7 (confirmed).  When the write attempt raises `ValueError`,
`FileNotFoundError` or `PermissionError`, `save_as_excel` catches and
logs it and returns normally. -/
theorem c7_save_swallows_write_errors (w : ExcelWriter) (p : String) (e : PyErr)
    (hw : w (normalizeXlsx p) = Except.error e)
    (he : e = PyErr.valueError ∨ e = PyErr.fileNotFound ∨ e = PyErr.permissionError) :
    save_as_excel w p = Except.ok (normalizeXlsx p) := by
  simp only [save_as_excel, hw]
  rw [if_pos he]

/-- Witness for `c7_save_swallows_write_errors`: a writer that always
raises `PermissionError` still lets `save_as_excel` return normally. -/
theorem c7_save_swallows_write_errors_witness :
    save_as_excel writerPerm "report.txt" = Except.ok "report.xlsx" :=
  (c7_save_swallows_write_errors writerPerm "report.txt" PyErr.permissionError rfl
    (Or.inr (Or.inr rfl))).trans (by decide)

/-- C9 (confirmed).  A path whose suffix is `.xlsx` in ANY letter case
(`.XLSX`, `.Xlsx`, ...) is left untouched: the suffix check lower-cases
the suffix before comparing, so the write goes to the caller's path
with its original capitalization. -/
theorem c9_uppercase_suffix_kept (p : String) (w : ExcelWriter)
    (hx : pyLower (pySuffix p) = ".xlsx") (hw : w p = Except.ok ()) :
    normalizeXlsx p = p ∧ save_as_excel w p = Except.ok p := by
  have hn : normalizeXlsx p = p := by
    unfold normalizeXlsx
    rw [if_neg (by simp [hx])]
  refine ⟨hn, ?_⟩
  simp only [save_as_excel, hn, hw]

/-- Witness for `c9_uppercase_suffix_kept` at `report.XLSX`. -/
theorem c9_uppercase_suffix_kept_witness :
    normalizeXlsx "report.XLSX" = "report.XLSX" ∧
    save_as_excel writerOk "report.XLSX" = Except.ok "report.XLSX" :=
  c9_uppercase_suffix_kept "report.XLSX" writerOk (by decide) rfl

/-! ### C8: dataset path resolution -/

/-- C8 (confirmed).  `__get_dataset_path` returns an absolute
configured path unchanged, and resolves a relative one to
`cwd.parent / 'Datasets' / path`. -/
theorem c8_dataset_path_resolution (cwd p : PyPath) :
    (p.absolute = true → DataLoader.get_dataset_path cwd p = p) ∧
    (p.absolute = false →
      DataLoader.get_dataset_path cwd p =
        { absolute := cwd.absolute
          components := cwd.components.dropLast ++ "Datasets" :: p.components }) := by
  constructor
  · intro h
    unfold DataLoader.get_dataset_path
    rw [if_pos h]
  · intro h
    unfold DataLoader.get_dataset_path
    rw [if_neg (by simp [h])]
    simp [PyPath.parent, PyPath.join]

/-- Witness for `c8_dataset_path_resolution` at a concrete absolute
and a concrete relative path. -/
theorem c8_dataset_path_resolution_witness :
    DataLoader.get_dataset_path cwdDemo { absolute := true, components := ["srv", "a.csv"] } =
      { absolute := true, components := ["srv", "a.csv"] } ∧
    DataLoader.get_dataset_path cwdDemo pStats =
      { absolute := true, components := ["home", "user", "Datasets", "stats.csv"] } :=
  ⟨(c8_dataset_path_resolution cwdDemo { absolute := true, components := ["srv", "a.csv"] }).1
      rfl,
   ((c8_dataset_path_resolution cwdDemo pStats).2 rfl).trans (by decide)⟩

/-! ### C10: the report builder does not mutate the loaded tables -/

/-- Inversion for a successful `Except` bind. -/
theorem except_bind_ok {ε α β : Type} (x : Except ε α) (f : α → Except ε β) (b : β)
    (h : x >>= f = Except.ok b) : ∃ a, x = Except.ok a ∧ f a = Except.ok b := by
  cases x with
  | error e => exact Except.noConfusion h
  | ok a => exact ⟨a, rfl, h⟩

/-- C10 (confirmed).  The report-building body never mutates the
loaded tables held in the dataset collection: the join produces a
fresh frame and the derived column, renaming and projection are
applied to that frame only, so a successful run returns the collection
exactly as it received it. -/
theorem c10_build_report_preserves_datasets (ds : List (String × DataFrame)) (r : DataFrame)
    (ds' : List (String × DataFrame)) (h : build_report ds = Except.ok (r, ds')) :
    ds' = ds ∧ build_report ds = Except.ok (r, ds) := by
  have h0 := h
  simp only [build_report] at h
  obtain ⟨stats, h1, h⟩ := except_bind_ok _ _ _ h
  obtain ⟨sal, h2, h⟩ := except_bind_ok _ _ _ h
  obtain ⟨m, h3, h⟩ := except_bind_ok _ _ _ h
  obtain ⟨d, h4, h⟩ := except_bind_ok _ _ _ h
  obtain ⟨final, h5, h⟩ := except_bind_ok _ _ _ h
  have hp := Except.ok.inj h
  rw [Prod.mk.injEq] at hp
  refine ⟨hp.2.symm, ?_⟩
  rw [h0, ← hp.2]

/-- Witness for `c10_build_report_preserves_datasets`: building the
report over `c4Stats` and the unmatched `c10Salaries` returns the
collection unchanged (and keeps the unmatched row with a `NaN`
salary). -/
theorem c10_build_report_preserves_datasets_witness :
    build_report [("player_stats", c4Stats), ("player_salaries", c10Salaries)] =
      Except.ok (c10Report, [("player_stats", c4Stats), ("player_salaries", c10Salaries)]) :=
  (c10_build_report_preserves_datasets
    [("player_stats", c4Stats), ("player_salaries", c10Salaries)] c10Report
    [("player_stats", c4Stats), ("player_salaries", c10Salaries)] (by decide)).2
